import Mathlib

set_option maxRecDepth 8000

/-!
Shallow embedding of the biogui CP2130/WANDmini acquisition core.

Sources embedded:
- src/interfaces/WANDmini.py and src/interfaces/interface_wandmini.py
  (packetSize, sigInfo channel count, decodeFn, configureDevice);
- src/biogui/data_sources/cp2130.py (Cp2130DataSourceWorker:
  startCollecting, stopCollecting, _collectData);
- src/biogui/data_sources/spi_usb.py (USBSpiDataSourceWorker._collectData).

Bytes are modelled as naturals (Python `bytes` elements, 0..255); the
float32 sample arrays hold 16-bit integer values, all exactly representable,
so channel values are modelled as naturals as well.  External collaborators
(the WANDminiComm transport and pandas persistence) are modelled by boolean
parameters giving the outcome of each call, and by traces of the hardware
actions the code requests.
-/

namespace BioGui

/-- A raw byte, modelled as a natural number. -/
abbrev Byte := Nat

/-- Packet size in bytes, from `packetSize` in src/interfaces/WANDmini.py
line 22 (same value in interface_wandmini.py line 23). -/
def packetSize : Nat := 200

/-- Channel count, from `sigInfo["emg"]["nCh"]` in src/interfaces/WANDmini.py
line 29 (same value in interface_wandmini.py line 25). -/
def nCh : Nat := 67

/-- `decodeFn` from src/interfaces/WANDmini.py lines 31-41 (identical logic in
interface_wandmini.py lines 27-37).  If byte 1 is 198 the packet is valid and
the 67 channel values are `raw_bytes[2*i+1] << 8 | raw_bytes[2*i]` where
`raw_bytes = data[2:]`; otherwise a zero row is produced.  The result is the
`emg` array of shape (1, nCh), modelled as a list of rows. -/
def decodeFn (data : List Byte) : List (List Nat) :=
  if data.getD 1 0 = 198 then
    [(List.range nCh).map fun i => ((data.getD (2 * i + 3) 0) <<< 8) ||| data.getD (2 * i + 2) 0]
  else
    [List.replicate nCh 0]

/-- The CRC-error test `packet[1] != 198` from src/biogui/data_sources/cp2130.py
lines 252 and 258. -/
def crcError (packet : List Byte) : Bool :=
  packet.getD 1 0 != 198

/-- Mutable state of `Cp2130DataSourceWorker` relevant to the claims:
`_buffer`, `_collected_data`, `_crc_flags`, `_sample_count`, `_crc_count`
(src/biogui/data_sources/cp2130.py lines 185-189). -/
structure Cp2130State where
  buffer : List Byte
  collected : List (List Nat)
  crcFlags : List Bool
  sampleCount : Nat
  crcCount : Nat
deriving DecidableEq, Repr

/-- One tick of `Cp2130DataSourceWorker._collectData`
(src/biogui/data_sources/cp2130.py lines 243-260), with `data` the bytes
returned by `WANDminiComm.cp2130_libusb_read`.  If `data` is falsy nothing
happens; otherwise the chunk is appended and, when the buffer holds at least
`packetSize` bytes, ONE packet is sliced off (`if`, not `while`), counted,
decoded, recorded, emitted (second component), and removed from the front. -/
def collectData (s : Cp2130State) (data : List Byte) : Cp2130State × List (List Byte) :=
  if data = [] then (s, [])
  else if packetSize ≤ (s.buffer ++ data).length then
    ({ buffer := (s.buffer ++ data).drop packetSize,
       collected := s.collected ++ [(decodeFn ((s.buffer ++ data).take packetSize)).headD []],
       crcFlags := s.crcFlags ++ [crcError ((s.buffer ++ data).take packetSize)],
       sampleCount := s.sampleCount + 1,
       crcCount := s.crcCount +
         if crcError ((s.buffer ++ data).take packetSize) then 1 else 0 },
     [(s.buffer ++ data).take packetSize])
  else
    ({ s with buffer := s.buffer ++ data }, [])

/-- A run of poll ticks: `_collectData` applied to each read chunk in turn,
collecting the packets emitted through `dataPacketReady` in order. -/
def collectRun (s : Cp2130State) : List (List Byte) → Cp2130State × List (List Byte)
  | [] => (s, [])
  | c :: cs =>
      ((collectRun (collectData s c).1 cs).1,
       (collectData s c).2 ++ (collectRun (collectData s c).1 cs).2)

/-- Fuel-bounded form of the drain loop
`while self.buffer.size() >= pkg_size: ...` of
`USBSpiDataSourceWorker._collectData` (src/biogui/data_sources/spi_usb.py
lines 142-145).  Each iteration emits the first `pkg` bytes and removes them;
since every iteration removes `pkg ≥ 1` bytes, `buf.length` iterations of
fuel always suffice. -/
def drainAux (pkg : Nat) : Nat → List Byte → List (List Byte) × List Byte
  | 0, buf => ([], buf)
  | fuel + 1, buf =>
      if pkg ≤ buf.length then
        (buf.take pkg :: (drainAux pkg fuel (buf.drop pkg)).1,
         (drainAux pkg fuel (buf.drop pkg)).2)
      else ([], buf)

/-- The drain loop run to completion on a buffer. -/
def drain (pkg : Nat) (buf : List Byte) : List (List Byte) × List Byte :=
  drainAux pkg buf.length buf

/-- One tick of `USBSpiDataSourceWorker._collectData`
(src/biogui/data_sources/spi_usb.py lines 136-147) fed one queued chunk:
append the chunk, then drain every complete packet. -/
def spiCollectData (pkg : Nat) (buf chunk : List Byte) : List (List Byte) × List Byte :=
  drain pkg (buf ++ chunk)

/-- A run of spi_usb poll ticks over a sequence of queued chunks, collecting
all packets emitted through `dataPacketReady` in order. -/
def spiRun (pkg : Nat) (buf : List Byte) : List (List Byte) → List (List Byte) × List Byte
  | [] => ([], buf)
  | c :: cs =>
      ((spiCollectData pkg buf c).1 ++ (spiRun pkg (spiCollectData pkg buf c).2 cs).1,
       (spiRun pkg (spiCollectData pkg buf c).2 cs).2)

/-- Hardware-visible actions requested from the WANDminiComm transport. -/
inductive Action where
  | usbConfig
  | spiWord
  | writeReg (page addr value : Nat)
  | flushFifo
  | sleep
  | startStream
  | stopStream
deriving DecidableEq, Repr

/-- `Cp2130DataSourceWorker.startCollecting`
(src/biogui/data_sources/cp2130.py lines 197-218).  `wideInput` is the
worker's `_wideInput` flag; `writeRegOk` is the boolean result of
`WANDminiComm.writeReg(handle, 0, 0x0C, 1)`.  Returns the new state, the
messages emitted through `errorOccurred`, and the trace of transport actions
attempted.  On a failed wide-input write the method returns at once; on
success the start sequence `[b"\x00", 0.1, b"\x01"]` (flush fifo, sleep,
start stream) runs and only the two counters are reset. -/
def startCollecting (s : Cp2130State) (wideInput writeRegOk : Bool) :
    Cp2130State × List String × List Action :=
  if wideInput then
    if writeRegOk then
      ({ s with sampleCount := 0, crcCount := 0 }, [],
       [Action.writeReg 0 0x0C 1, Action.flushFifo, Action.sleep, Action.startStream])
    else
      (s, ["Failed to enable wide input mode."], [Action.writeReg 0 0x0C 1])
  else
    ({ s with sampleCount := 0, crcCount := 0 }, [],
     [Action.flushFifo, Action.sleep, Action.startStream])

/-- The table written by `df.to_csv` in `stopCollecting`: one column per
channel named `Ch{i}`, the collected rows, and the boolean CRC column
(src/biogui/data_sources/cp2130.py lines 233-236). -/
structure OutTable where
  columns : List String
  rows : List (List Nat)
  crc : List Bool
deriving DecidableEq, Repr

/-- The column names `[f"Ch{i}" for i in range(channel_count)]`
(src/biogui/data_sources/cp2130.py line 234). -/
def channelColumns : List String :=
  (List.range nCh).map fun i => "Ch" ++ toString i

/-- Outcome of one `stopCollecting` call: resulting worker state, the table
written (if any), whether `WANDminiComm.exit_cp2130` released the handle,
whether the buffer was replaced by a fresh `QByteArray`, and whether an
exception propagated out of the method. -/
structure StopOutcome where
  state : Cp2130State
  written : Option OutTable
  released : Bool
  bufferCleared : Bool
  raised : Bool
deriving DecidableEq, Repr

/-- `Cp2130DataSourceWorker.stopCollecting`
(src/biogui/data_sources/cp2130.py lines 220-241).  `stopStreamRaises` models
`WANDminiComm.stopStream` raising during the stop sequence (its boolean
return value is ignored by the code, so a `False` return is not a failure
path); `persistRaises` models `os.makedirs`/`DataFrame.to_csv` raising.  The
method body has no try/except, so any exception propagates immediately and
the subsequent statements — including `exit_cp2130` and the buffer reset —
are skipped. -/
def stopCollecting (s : Cp2130State) (stopStreamRaises persistRaises : Bool) : StopOutcome :=
  if stopStreamRaises then
    { state := s, written := none, released := false, bufferCleared := false, raised := true }
  else if 0 < s.sampleCount then
    if persistRaises then
      { state := s, written := none, released := false, bufferCleared := false, raised := true }
    else
      { state := { s with buffer := [] },
        written := some { columns := channelColumns, rows := s.collected, crc := s.crcFlags },
        released := true, bufferCleared := true, raised := false }
  else
    { state := { s with buffer := [] },
      written := none, released := true, bufferCleared := true, raised := false }

/-- `configureDevice` from src/interfaces/WANDmini.py lines 43-48 (identical
logic, short-circuit `and` chain, in interface_wandmini.py lines 59-64).
`usbOk`, `spiOk`, `regOk` are the boolean results of
`cp2130_libusb_set_usb_config`, `cp2130_libusb_set_spi_word` and
`writeReg(handle, 0, 0x0C, 1)`.  Returns the boolean result together with
the trace of transport calls attempted; each call happens only if every
earlier one succeeded. -/
def configureDevice (usbOk spiOk regOk : Bool) : Bool × List Action :=
  if !usbOk then (false, [Action.usbConfig])
  else if !spiOk then (false, [Action.usbConfig, Action.spiWord])
  else (regOk, [Action.usbConfig, Action.spiWord, Action.writeReg 0 0x0C 1])


/-- Bookkeeping of one `_collectData` tick: every emitted packet is exactly
`packetSize` bytes sliced from the front, the counters and record lists grow
by one entry per emitted packet, and no byte is duplicated, dropped or
reordered (emitted bytes followed by the retained buffer equal the old buffer
followed by the chunk). -/
theorem collectData_spec (s : Cp2130State) (c : List Byte) :
    (collectData s c).1.sampleCount = s.sampleCount + (collectData s c).2.length ∧
    (collectData s c).1.crcCount = s.crcCount + (collectData s c).2.countP crcError ∧
    (collectData s c).1.collected
      = s.collected ++ (collectData s c).2.map (fun p => (decodeFn p).headD []) ∧
    (collectData s c).1.crcFlags = s.crcFlags ++ (collectData s c).2.map crcError ∧
    (collectData s c).2.flatten ++ (collectData s c).1.buffer = s.buffer ++ c ∧
    ∀ p ∈ (collectData s c).2, p.length = packetSize := by
  by_cases hc : c = []
  · subst hc
    simp [collectData]
  · by_cases hlen : packetSize ≤ (s.buffer ++ c).length
    · simp only [collectData, if_neg hc, if_pos hlen]
      refine ⟨by simp, ?_, by simp, by simp, ?_, ?_⟩
      · by_cases hcrc : crcError ((s.buffer ++ c).take packetSize) <;>
          simp [hcrc, List.countP_cons]
      · simp [List.take_append_drop]
      · intro p hp
        rcases List.mem_singleton.mp hp with rfl
        rw [List.length_take]
        exact Nat.min_eq_left hlen
    · simp only [collectData, if_neg hc, if_neg hlen]
      simp

/-- Bookkeeping of a whole run of `_collectData` ticks, by composing
`collectData_spec` over the list of read chunks. -/
theorem collectRun_spec (cs : List (List Byte)) (s : Cp2130State) :
    (collectRun s cs).1.sampleCount = s.sampleCount + (collectRun s cs).2.length ∧
    (collectRun s cs).1.crcCount = s.crcCount + (collectRun s cs).2.countP crcError ∧
    (collectRun s cs).1.collected
      = s.collected ++ (collectRun s cs).2.map (fun p => (decodeFn p).headD []) ∧
    (collectRun s cs).1.crcFlags = s.crcFlags ++ (collectRun s cs).2.map crcError ∧
    (collectRun s cs).2.flatten ++ (collectRun s cs).1.buffer = s.buffer ++ cs.flatten ∧
    ∀ p ∈ (collectRun s cs).2, p.length = packetSize := by
  induction cs generalizing s with
  | nil => simp [collectRun]
  | cons c cs ih =>
      obtain ⟨h1, h2, h3, h4, h5, h6⟩ := collectData_spec s c
      obtain ⟨g1, g2, g3, g4, g5, g6⟩ := ih (collectData s c).1
      simp only [collectRun]
      refine ⟨?_, ?_, ?_, ?_, ?_, ?_⟩
      · simp only [g1, h1, List.length_append]
        omega
      · simp only [g2, h2, List.countP_append]
        omega
      · simp [g3, h3]
      · simp [g4, h4]
      · rw [List.flatten_append, List.append_assoc, g5, ← List.append_assoc, h5,
          List.append_assoc, List.flatten_cons]
      · intro p hp
        rcases List.mem_append.mp hp with h' | h'
        · exact h6 p h'
        · exact g6 p h'

/-- The fuel-bounded drain loop, given enough fuel, conserves the buffer
bytes, emits only full packets, and leaves a remainder shorter than one
packet. -/
theorem drainAux_spec (pkg : Nat) (hpkg : 0 < pkg) (fuel : Nat) :
    ∀ buf : List Byte, buf.length ≤ fuel →
      (drainAux pkg fuel buf).1.flatten ++ (drainAux pkg fuel buf).2 = buf ∧
      (∀ p ∈ (drainAux pkg fuel buf).1, p.length = pkg) ∧
      (drainAux pkg fuel buf).2.length < pkg := by
  induction fuel with
  | zero =>
      intro buf hb
      have hnil : buf = [] := List.eq_nil_of_length_eq_zero (Nat.le_zero.mp hb)
      subst hnil
      simpa [drainAux] using hpkg
  | succ n ih =>
      intro buf hb
      by_cases h : pkg ≤ buf.length
      · have hlen : (buf.drop pkg).length ≤ n := by
          rw [List.length_drop]; omega
        obtain ⟨ih1, ih2, ih3⟩ := ih (buf.drop pkg) hlen
        refine ⟨?_, ?_, ?_⟩
        · simp only [drainAux, if_pos h, List.flatten_cons, List.append_assoc, ih1,
            List.take_append_drop]
        · intro p hp
          simp only [drainAux, if_pos h] at hp
          rcases List.mem_cons.mp hp with rfl | h'
          · rw [List.length_take]
            exact Nat.min_eq_left h
          · exact ih2 p h'
        · simpa only [drainAux, if_pos h] using ih3
      · refine ⟨?_, ?_, ?_⟩ <;> simp only [drainAux, if_neg h]
        · simp
        · simp
        · omega

/-- Byte conservation and full-packet lengths for a run of spi_usb ticks. -/
theorem spiRun_spec (pkg : Nat) (hpkg : 0 < pkg) (cs : List (List Byte)) :
    ∀ buf : List Byte,
      (spiRun pkg buf cs).1.flatten ++ (spiRun pkg buf cs).2 = buf ++ cs.flatten ∧
      ∀ p ∈ (spiRun pkg buf cs).1, p.length = pkg := by
  induction cs with
  | nil => intro buf; simp [spiRun]
  | cons c cs ih =>
      intro buf
      obtain ⟨d1, d2, -⟩ :=
        drainAux_spec pkg hpkg (buf ++ c).length (buf ++ c) le_rfl
      obtain ⟨g1, g2⟩ := ih (spiCollectData pkg buf c).2
      have hd1 : (spiCollectData pkg buf c).1.flatten ++ (spiCollectData pkg buf c).2
          = buf ++ c := d1
      refine ⟨?_, ?_⟩
      · show ((spiCollectData pkg buf c).1
              ++ (spiRun pkg (spiCollectData pkg buf c).2 cs).1).flatten
            ++ (spiRun pkg (spiCollectData pkg buf c).2 cs).2
          = buf ++ (c :: cs).flatten
        rw [List.flatten_append, List.append_assoc, g1, ← List.append_assoc, hd1,
          List.append_assoc, List.flatten_cons]
      · intro p hp
        rcases List.mem_append.mp hp with h' | h'
        · exact d2 p h'
        · exact g2 p h'

/-- Claim C1: the claim states that one `_collectData` poll tick yields every
complete packet, leaving a retained buffer strictly shorter than
`packetSize`.  The cp2130 worker uses `if` instead of `while`
(src/biogui/data_sources/cp2130.py line 248): starting from an empty buffer,
a single tick whose read returns 400 bytes (two complete packets) emits only
one packet and retains 200 bytes, which is not smaller than `packetSize`.
The spi_usb worker's `while`-draining tick on the same input emits both
packets and retains nothing, which is the behaviour the claim describes. -/
theorem c1_if_drain_retains_full_packet :
    ((collectData ⟨[], [], [], 0, 0⟩ (List.replicate 400 0)).2.length = 1 ∧
     (collectData ⟨[], [], [], 0, 0⟩ (List.replicate 400 0)).1.buffer.length = 200 ∧
     ¬ (collectData ⟨[], [], [], 0, 0⟩ (List.replicate 400 0)).1.buffer.length < packetSize) ∧
    ((spiRun 200 [] [List.replicate 400 0]).1.length = 2 ∧
     (spiRun 200 [] [List.replicate 400 0]).2.length = 0) := by
  decide

/-- Claim C2: a 200-byte packet whose byte 1 equals 198 decodes as valid
(the CRC-error flag recorded for it is `false`), into an array of shape
(1, nCh) whose entry `i` is `packet[2+2i+1] <<< 8 ||| packet[2+2i]`. -/
theorem c2_decode_valid_packet (d : List Byte) (hlen : d.length = 200)
    (hv : d.getD 1 0 = 198) :
    crcError d = false ∧
    (decodeFn d).length = 1 ∧
    ((decodeFn d).headD []).length = nCh ∧
    ∀ i, i < nCh →
      ((decodeFn d).headD []).getD i 0
        = ((d.getD (2 * i + 3) 0) <<< 8) ||| d.getD (2 * i + 2) 0 := by
  refine ⟨?_, ?_, ?_, ?_⟩
  · show (d.getD 1 0 != 198) = false
    simp only [bne_eq_false_iff_eq]
    exact hv
  · simp only [decodeFn, if_pos hv]
    rfl
  · simp only [decodeFn, if_pos hv, List.headD_cons]
    simp
  · intro i hi
    simp only [decodeFn, if_pos hv, List.headD_cons]
    have hlt : i < ((List.range nCh).map
        (fun i => ((d.getD (2 * i + 3) 0) <<< 8) ||| d.getD (2 * i + 2) 0)).length := by
      simp [hi]
    rw [List.getD_eq_getElem _ _ hlt]
    simp

/-- Claim C2 witness: the theorem applied to the concrete valid packet
`0, 198, 0, 1, 2, ..., 197`, whose first channel value is
`1 <<< 8 ||| 0 = 256`. -/
theorem c2_decode_valid_packet_witness :
    (0 :: 198 :: List.range 198).length = 200 ∧
    crcError (0 :: 198 :: List.range 198) = false ∧
    ((decodeFn (0 :: 198 :: List.range 198)).headD []).getD 0 0 = 256 := by
  refine ⟨by decide, (c2_decode_valid_packet _ (by decide) (by decide)).1, ?_⟩
  have h := (c2_decode_valid_packet (0 :: 198 :: List.range 198)
    (by decide) (by decide)).2.2.2 0 (by decide)
  rw [h]
  decide

/-- Claim C3: a 200-byte packet whose byte 1 differs from 198 decodes as
invalid (the recorded CRC-error flag is `true`), and the produced record
still has the declared channel count, with every channel value zero. -/
theorem c3_decode_invalid_packet (d : List Byte) (hlen : d.length = 200)
    (hv : d.getD 1 0 ≠ 198) :
    crcError d = true ∧
    (decodeFn d).length = 1 ∧
    ((decodeFn d).headD []).length = nCh ∧
    ∀ i, i < nCh → ((decodeFn d).headD []).getD i 0 = 0 := by
  refine ⟨?_, ?_, ?_, ?_⟩
  · show (d.getD 1 0 != 198) = true
    simp only [bne_iff_ne, ne_eq]
    exact hv
  · simp only [decodeFn, if_neg hv]
    rfl
  · simp only [decodeFn, if_neg hv, List.headD_cons]
    simp
  · intro i hi
    simp only [decodeFn, if_neg hv, List.headD_cons]
    have hlt : i < (List.replicate nCh (0 : Nat)).length := by simp [hi]
    rw [List.getD_eq_getElem _ _ hlt]
    simp

/-- Claim C3 witness: the theorem applied to the concrete invalid packet
`0, 5, 0, 1, 2, ..., 197`, whose first channel value decodes to zero. -/
theorem c3_decode_invalid_packet_witness :
    (0 :: 5 :: List.range 198).length = 200 ∧
    crcError (0 :: 5 :: List.range 198) = true ∧
    ((decodeFn (0 :: 5 :: List.range 198)).headD []).getD 0 0 = 0 := by
  refine ⟨by decide, (c3_decode_invalid_packet _ (by decide) (by decide)).1, ?_⟩
  have h := (c3_decode_invalid_packet (0 :: 5 :: List.range 198)
    (by decide) (by decide)).2.2.2 0 (by decide)
  rw [h]

/-- Claim C4: over any run of `_collectData` poll ticks started with zeroed
counters (as `startCollecting` leaves them), `_sample_count` equals the
number of packets processed so far (valid or invalid), `_crc_count` equals
the number of processed packets whose byte 1 differs from 198, and exactly
one decoded row and one CRC flag have been appended per processed packet, in
arrival order. -/
theorem c4_streaming_counters_records (b : List Byte) (r : List (List Nat))
    (f : List Bool) (cs : List (List Byte)) :
    (collectRun ⟨b, r, f, 0, 0⟩ cs).1.sampleCount
      = (collectRun ⟨b, r, f, 0, 0⟩ cs).2.length ∧
    (collectRun ⟨b, r, f, 0, 0⟩ cs).1.crcCount
      = (collectRun ⟨b, r, f, 0, 0⟩ cs).2.countP (fun p => p.getD 1 0 != 198) ∧
    (collectRun ⟨b, r, f, 0, 0⟩ cs).1.collected
      = r ++ (collectRun ⟨b, r, f, 0, 0⟩ cs).2.map (fun p => (decodeFn p).headD []) ∧
    (collectRun ⟨b, r, f, 0, 0⟩ cs).1.crcFlags
      = f ++ (collectRun ⟨b, r, f, 0, 0⟩ cs).2.map (fun p => p.getD 1 0 != 198) := by
  have hfun : (fun p : List Byte => p.getD 1 0 != 198) = crcError := rfl
  simp only [hfun]
  obtain ⟨h1, h2, h3, h4, -, -⟩ := collectRun_spec cs ⟨b, r, f, 0, 0⟩
  exact ⟨by simpa using h1, by simpa using h2, by simpa using h3, by simpa using h4⟩

/-- Claim C5: for every packet size and every finite sequence of raw chunks
fed from an empty buffer, the concatenation of all yielded packets followed
by the final remainder equals the concatenation of the inputs, and every
yielded packet has exactly the packet size — for the spi_usb while-draining
assembler with any positive packet size, and likewise for the cp2130 tick
with its fixed 200-byte packets. -/
theorem c5_assembler_conservation (pkg : Nat) (cs : List (List Byte))
    (hpkg : 0 < pkg) :
    ((spiRun pkg [] cs).1.flatten ++ (spiRun pkg [] cs).2 = cs.flatten ∧
     ∀ p ∈ (spiRun pkg [] cs).1, p.length = pkg) ∧
    ((collectRun ⟨[], [], [], 0, 0⟩ cs).2.flatten
        ++ (collectRun ⟨[], [], [], 0, 0⟩ cs).1.buffer = cs.flatten ∧
     ∀ p ∈ (collectRun ⟨[], [], [], 0, 0⟩ cs).2, p.length = packetSize) := by
  obtain ⟨s1, s2⟩ := spiRun_spec pkg hpkg cs []
  obtain ⟨-, -, -, -, h5, h6⟩ := collectRun_spec cs ⟨[], [], [], 0, 0⟩
  exact ⟨⟨by simpa using s1, s2⟩, ⟨by simpa using h5, h6⟩⟩

/-- Claim C5 witness: the theorem applied at packet size 2 to the single
chunk `[1, 2, 3]`: the yielded packet `[1, 2]` plus the remainder `[3]`
reassemble the input. -/
theorem c5_assembler_conservation_witness :
    0 < 2 ∧
    (spiRun 2 [] [[1, 2, 3]]).1.flatten ++ (spiRun 2 [] [[1, 2, 3]]).2
      = ([[1, 2, 3]] : List (List Byte)).flatten :=
  ⟨by decide, ((c5_assembler_conservation 2 [[1, 2, 3]] (by decide)).1).1⟩

/-- Claim C6: after a run of poll ticks started with fresh records and
counters, `stopCollecting` (with no exception from the stop command or from
persistence) writes an output table exactly when `_sample_count > 0`; the
table has the `Ch0..Ch66` channel columns, one row per processed packet in
arrival order, and a CRC column holding `packet[1] != 198` for each row —
the inverse of that packet's validity. -/
theorem c6_stop_persistence_table (b : List Byte) (cs : List (List Byte)) :
    ((stopCollecting (collectRun ⟨b, [], [], 0, 0⟩ cs).1 false false).written.isSome
      ↔ 0 < (collectRun ⟨b, [], [], 0, 0⟩ cs).1.sampleCount) ∧
    (stopCollecting (collectRun ⟨b, [], [], 0, 0⟩ cs).1 false false).written
      = (if 0 < (collectRun ⟨b, [], [], 0, 0⟩ cs).2.length then
          some { columns := channelColumns,
                 rows := (collectRun ⟨b, [], [], 0, 0⟩ cs).2.map
                   (fun p => (decodeFn p).headD []),
                 crc := (collectRun ⟨b, [], [], 0, 0⟩ cs).2.map
                   (fun p => p.getD 1 0 != 198) }
         else none) ∧
    channelColumns.length = nCh := by
  have hfun : (fun p : List Byte => p.getD 1 0 != 198) = crcError := rfl
  simp only [hfun]
  obtain ⟨h1, -, h3, h4, -, -⟩ := collectRun_spec cs ⟨b, [], [], 0, 0⟩
  refine ⟨?_, ?_, by simp [channelColumns, nCh]⟩
  · by_cases h : 0 < (collectRun ⟨b, [], [], 0, 0⟩ cs).1.sampleCount <;>
      simp [stopCollecting, h]
  · rcases Nat.eq_zero_or_pos (collectRun ⟨b, [], [], 0, 0⟩ cs).2.length with hz | hp
    · have hs : (collectRun ⟨b, [], [], 0, 0⟩ cs).1.sampleCount = 0 := by
        rw [h1, hz]
      simp [stopCollecting, hs, hz]
    · have hs : 0 < (collectRun ⟨b, [], [], 0, 0⟩ cs).1.sampleCount := by
        rw [h1]; omega
      simp [stopCollecting, hs, hp, h3, h4]

/-- Claim C7 counterexample: in a state with one collected sample, a raising
persistence step (`os.makedirs`/`to_csv`) propagates out of `stopCollecting`
— there is no try/except around it — so `exit_cp2130` is never reached: the
handle is not released and the buffer is not cleared, contradicting the
claim that no persistence failure can prevent the release. -/
theorem c7_persist_exception_skips_release :
    0 < (⟨[], [[5]], [true], 1, 1⟩ : Cp2130State).sampleCount ∧
    (stopCollecting ⟨[], [[5]], [true], 1, 1⟩ false true).raised = true ∧
    (stopCollecting ⟨[], [[5]], [true], 1, 1⟩ false true).released = false ∧
    (stopCollecting ⟨[], [[5]], [true], 1, 1⟩ false true).bufferCleared = false := by
  decide

/-- Claim C7 amended: `stopCollecting` releases the Transport handle exactly
when no stop-sequence command raises and the persistence step either does
not raise or is skipped because no samples were collected; stop-sequence
failures signalled by a boolean return are ignored and never block teardown,
and whenever nothing raises the handle is released and the buffer cleared. -/
theorem c7_handle_release_amended (s : Cp2130State) (ssRaises pRaises : Bool) :
    ((stopCollecting s ssRaises pRaises).released = true ↔
      ssRaises = false ∧ (pRaises = false ∨ s.sampleCount = 0)) ∧
    (stopCollecting s false false).released = true ∧
    (stopCollecting s false false).bufferCleared = true ∧
    (stopCollecting s false false).state.buffer = [] := by
  cases ssRaises <;> cases pRaises <;>
    rcases Nat.eq_zero_or_pos s.sampleCount with h | h <;>
      simp [stopCollecting, h] <;> omega

/-- Claim C8: when `_wideInput` is set and the register write
`writeReg(handle, 0, 0x0C, 1)` fails, `startCollecting` emits the error
message and returns at once: the only attempted transport action is that
write (no start-sequence action runs), the counters are not reset, and the
whole state is exactly the pre-call state. -/
theorem c8_wide_input_failure_aborts (s : Cp2130State) :
    startCollecting s true false
      = (s, ["Failed to enable wide input mode."], [Action.writeReg 0 0x0C 1]) := rfl

/-- Claim C9 counterexample: a successful `startCollecting` on a worker
carrying records from a previous run resets both counters and emits no
error, but `_collected_data` and `_crc_flags` are not cleared — the claim
that the records list is empty after a successful start fails. -/
theorem c9_records_not_cleared :
    (startCollecting ⟨[], [[7]], [true], 3, 1⟩ false true).2.1 = [] ∧
    (startCollecting ⟨[], [[7]], [true], 3, 1⟩ false true).1.sampleCount = 0 ∧
    (startCollecting ⟨[], [[7]], [true], 3, 1⟩ false true).1.crcCount = 0 ∧
    ¬ (startCollecting ⟨[], [[7]], [true], 3, 1⟩ false true).1.collected = [] ∧
    ¬ (startCollecting ⟨[], [[7]], [true], 3, 1⟩ false true).1.crcFlags = [] := by
  decide

/-- Claim C9 amended: a successful `startCollecting` resets `_sample_count`
and `_crc_count` to zero and emits no error, but leaves `_collected_data`
and `_crc_flags` (and the byte buffer) untouched, so records from a previous
run are carried into the next run. -/
theorem c9_start_resets_counters_amended (s : Cp2130State) (ok : Bool) :
    startCollecting s false ok
      = ({ s with sampleCount := 0, crcCount := 0 }, [],
         [Action.flushFifo, Action.sleep, Action.startStream]) ∧
    startCollecting s true true
      = ({ s with sampleCount := 0, crcCount := 0 }, [],
         [Action.writeReg 0 0x0C 1, Action.flushFifo, Action.sleep, Action.startStream]) :=
  ⟨rfl, rfl⟩

/-- Claim C10 counterexample: `configureDevice` short-circuits: on a handle
whose USB-configuration write fails, the wide-input register write is never
attempted, so the step does not ALWAYS perform that write for every device
handle as the claim states. -/
theorem c10_reg_write_skipped_on_usb_failure :
    Action.writeReg 0 0x0C 1 ∉ (configureDevice false true true).2 ∧
    (configureDevice false true true).1 = false := by
  decide

/-- Claim C10 amended: `configureDevice` takes no wide-input flag (it runs
the same way whether or not the user enables wide input); it reports success
exactly when the USB-config write, the SPI-word write and the wide-input
register write (page 0, address 0x0C, value 1) all succeed, and it attempts
that register write exactly when the first two writes succeed — so wide
input mode is enabled on the hardware on every successful configuration,
even when the user leaves it disabled. -/
theorem c10_configure_device_amended (usbOk spiOk regOk : Bool) :
    (configureDevice usbOk spiOk regOk).1 = (usbOk && spiOk && regOk) ∧
    (Action.writeReg 0 0x0C 1 ∈ (configureDevice usbOk spiOk regOk).2
      ↔ (usbOk = true ∧ spiOk = true)) := by
  cases usbOk <;> cases spiOk <;> cases regOk <;> decide

end BioGui
